import Mathlib

/-!
Shallow embedding of the xwave glitch-effect filter library.
Images are dense rasters: a height, a width, and a total pixel function.
Byte-valued rasters use natural-number samples (0..255); intermediate
float32 arithmetic from the source is modelled with exact rationals.
External library routines with irrational values (sqrt, sin, cos, exp,
the platform RNG, the separable blur) are modelled as explicit function
parameters, so every filter is a pure function of its inputs.
-/

attribute [local semireducible] Rat.add Rat.sub Rat.mul Rat.inv Rat.ofScientific

/-- A raster image: height, width, and a total pixel function.
Pixels outside the declared bounds are irrelevant junk values. -/
@[ext]
structure Img (α : Type) where
  h : ℕ
  w : ℕ
  pix : ℕ → ℕ → α

/-- Byte RGB pixel (each component intended in 0..255). -/
abbrev RGBb : Type := ℕ × ℕ × ℕ

/-- Rational RGB pixel (float32 arithmetic modelled exactly). -/
abbrev RGBq : Type := ℚ × ℚ × ℚ

/-- Single-channel rational grid, as used for numpy 2-D float arrays. -/
abbrev Grid : Type := ℕ → ℕ → ℚ

/-- Single-channel byte grid, as used for numpy 2-D uint8 arrays. -/
abbrev GridN : Type := ℕ → ℕ → ℕ

/-- The spatial shape (height, width) of an image. -/
def shapeOf {α : Type} (img : Img α) : ℕ × ℕ := (img.h, img.w)

/-- numpy clip: clamp a rational sample to an interval. -/
def clipQ (lo hi x : ℚ) : ℚ := min hi (max lo x)

/-- Kernel-computable floor on the rationals (bridged to the
Mathlib floor by ratFloor_eq in the theorem section). -/
def ratFloor (q : ℚ) : ℤ := Rat.floor q

/-- Conversion of a float sample to uint8 after a clip to 0..255
(astype truncates toward zero, which is floor on nonnegative values). -/
def toByte (q : ℚ) : ℕ := (ratFloor (clipQ 0 255 q)).toNat

/-- numpy round: round half to even (banker's rounding), as a rational. -/
def npRound (q : ℚ) : ℚ :=
  let f : ℤ := ratFloor q
  let r : ℚ := q - f
  if r < 1/2 then (f : ℚ)
  else if 1/2 < r then ((f + 1 : ℤ) : ℚ)
  else if f % 2 = 0 then (f : ℚ) else ((f + 1 : ℤ) : ℚ)

/-- Python float modulus (floored): a - b * floor (a / b). -/
def qmod (a b : ℚ) : ℚ := a - b * (ratFloor (a / b) : ℚ)

/-! ## src/effects/color_channel.py -/

/-- Channel swap red-green: (r, g, b) becomes (g, r, b). -/
def swap_red_green (img : Img RGBb) : Img RGBb :=
  ⟨img.h, img.w, fun i j => ((img.pix i j).2.1, (img.pix i j).1, (img.pix i j).2.2)⟩

/-- Channel swap red-blue: (r, g, b) becomes (b, g, r). -/
def swap_red_blue (img : Img RGBb) : Img RGBb :=
  ⟨img.h, img.w, fun i j => ((img.pix i j).2.2, (img.pix i j).2.1, (img.pix i j).1)⟩

/-- Channel swap green-blue: (r, g, b) becomes (r, b, g). -/
def swap_green_blue (img : Img RGBb) : Img RGBb :=
  ⟨img.h, img.w, fun i j => ((img.pix i j).1, (img.pix i j).2.2, (img.pix i j).2.1)⟩

/-- Invert the red channel: 255 - r on uint8 samples. -/
def invert_red (img : Img RGBb) : Img RGBb :=
  ⟨img.h, img.w, fun i j => (255 - (img.pix i j).1, (img.pix i j).2.1, (img.pix i j).2.2)⟩

/-- Invert the green channel. -/
def invert_green (img : Img RGBb) : Img RGBb :=
  ⟨img.h, img.w, fun i j => ((img.pix i j).1, 255 - (img.pix i j).2.1, (img.pix i j).2.2)⟩

/-- Invert the blue channel. -/
def invert_blue (img : Img RGBb) : Img RGBb :=
  ⟨img.h, img.w, fun i j => ((img.pix i j).1, (img.pix i j).2.1, 255 - (img.pix i j).2.2)⟩

/-- Negative: invert all three channels. -/
def negative_image (img : Img RGBb) : Img RGBb :=
  ⟨img.h, img.w, fun i j =>
    (255 - (img.pix i j).1, 255 - (img.pix i j).2.1, 255 - (img.pix i j).2.2)⟩

/-- Scale a uint8 sample by a factor, clip to 0..255, cast back to uint8. -/
def adjustByte (c : ℕ) (sf : ℚ) : ℕ := toByte ((c : ℚ) * sf)

/-- Multiply the red channel by the safe factor with clipping. -/
def adjust_red (img : Img RGBb) (sf : ℚ) : Img RGBb :=
  ⟨img.h, img.w, fun i j =>
    (adjustByte (img.pix i j).1 sf, (img.pix i j).2.1, (img.pix i j).2.2)⟩

/-- Multiply the green channel by the safe factor with clipping. -/
def adjust_green (img : Img RGBb) (sf : ℚ) : Img RGBb :=
  ⟨img.h, img.w, fun i j =>
    ((img.pix i j).1, adjustByte (img.pix i j).2.1 sf, (img.pix i j).2.2)⟩

/-- Multiply the blue channel by the safe factor with clipping. -/
def adjust_blue (img : Img RGBb) (sf : ℚ) : Img RGBb :=
  ⟨img.h, img.w, fun i j =>
    ((img.pix i j).1, (img.pix i j).2.1, adjustByte (img.pix i j).2.2 sf)⟩

/-- Embedding of color_channel_manipulation from src/effects/color_channel.py.
The if/elif dispatch on manipulation_type and choice is kept exactly;
branches with no matching choice fall through and return the input pixels
unchanged.  A missing factor for the adjust branch raises ValueError,
modelled as an Except.error result. -/
def color_channel_manipulation (img : Img RGBb) (manipulation_type choice : String)
    (factor : Option ℚ) : Except String (Img RGBb) :=
  if manipulation_type = "swap" then
    if choice = "red-green" then .ok (swap_red_green img)
    else if choice = "red-blue" then .ok (swap_red_blue img)
    else if choice = "green-blue" then .ok (swap_green_blue img)
    else .ok img
  else if manipulation_type = "invert" then
    if choice = "red" then .ok (invert_red img)
    else if choice = "green" then .ok (invert_green img)
    else if choice = "blue" then .ok (invert_blue img)
    else .ok img
  else if manipulation_type = "negative" then .ok (negative_image img)
  else if manipulation_type = "adjust" then
    match factor with
    | none => .error "Factor is required for adjust manipulation"
    | some f =>
      let safe_factor := max 0 f
      if choice = "red" then .ok (adjust_red img safe_factor)
      else if choice = "green" then .ok (adjust_green img safe_factor)
      else if choice = "blue" then .ok (adjust_blue img safe_factor)
      else .ok img
  else .ok img

/-! ## src/effects/rgb_shift.py -/

/-- Embedding of shift_channel from src/effects/rgb_shift.py: translate a
2-D channel by shift pixels along the given axis, filling the vacated
region with zeros.  Models the case where the shift magnitude is at most
the image size; beyond it the numpy slice assignment raises a broadcast
error (negative slice ends), where this embedding returns the all-zero
channel. -/
def shift_channel (h w : ℕ) (channel : GridN) (shift : ℤ) (direction : String) :
    Except String GridN :=
  if direction = "horizontal" then
    if shift < 0 then
      .ok (fun i j => if (j : ℤ) < (w : ℤ) + shift then channel i ((j : ℤ) - shift).toNat else 0)
    else if 0 < shift then
      .ok (fun i j => if shift ≤ (j : ℤ) then channel i ((j : ℤ) - shift).toNat else 0)
    else .ok channel
  else if direction = "vertical" then
    if shift < 0 then
      .ok (fun i j => if (i : ℤ) < (h : ℤ) + shift then channel ((i : ℤ) - shift).toNat j else 0)
    else if 0 < shift then
      .ok (fun i j => if shift ≤ (i : ℤ) then channel ((i : ℤ) - shift).toNat j else 0)
    else .ok channel
  else .error "Direction must be horizontal or vertical."

/-- Embedding of mirror_channel from src/effects/rgb_shift.py. -/
def mirror_channel (h w : ℕ) (channel : GridN) (direction : String) :
    Except String GridN :=
  if direction = "horizontal" then .ok (fun i j => channel i (w - 1 - j))
  else if direction = "vertical" then .ok (fun i j => channel (h - 1 - i) j)
  else .error "Direction must be horizontal or vertical."

/-- First character of the upper-cased channel name, as the source's
centered_channel.upper()[0]: upper-casing then taking the head is taking
the head then upper-casing it (total: an empty name yields a junk
character where Python would raise an IndexError). -/
def channelInitial (s : String) : Char :=
  match s.toList with
  | c :: _ => c.toUpper
  | [] => ' '

/-- Embedding of split_and_shift_channels from src/effects/rgb_shift.py:
split an RGB image into channels, shift or mirror the two non-centered
channels, and recombine.  An unrecognized centered channel leaves the
processed channels undefined in the source (UnboundLocalError), modelled
as an Except.error. -/
def split_and_shift_channels (img : Img RGBb) (shift_amount : ℤ)
    (direction centered_channel mode : String) : Except String (Img RGBb) :=
  let R : GridN := fun i j => (img.pix i j).1
  let G : GridN := fun i j => (img.pix i j).2.1
  let B : GridN := fun i j => (img.pix i j).2.2
  let cc := channelInitial centered_channel
  if mode = "shift" then
    match (if cc = 'R' then some ((0 : ℤ), -shift_amount, shift_amount)
           else if cc = 'G' then some (-shift_amount, (0 : ℤ), shift_amount)
           else if cc = 'B' then some (-shift_amount, shift_amount, (0 : ℤ))
           else none) with
    | none => .error "centered channel is not defined"
    | some (sR, sG, sB) => do
      let Rp ← shift_channel img.h img.w R sR direction
      let Gp ← shift_channel img.h img.w G sG direction
      let Bp ← shift_channel img.h img.w B sB direction
      return ⟨img.h, img.w, fun i j => (Rp i j, Gp i j, Bp i j)⟩
  else if mode = "mirror" then
    if cc = 'R' then do
      let Gp ← mirror_channel img.h img.w G "horizontal"
      let Bp ← mirror_channel img.h img.w B "vertical"
      return ⟨img.h, img.w, fun i j => (R i j, Gp i j, Bp i j)⟩
    else if cc = 'G' then do
      let Rp ← mirror_channel img.h img.w R "horizontal"
      let Bp ← mirror_channel img.h img.w B "vertical"
      return ⟨img.h, img.w, fun i j => (Rp i j, G i j, Bp i j)⟩
    else if cc = 'B' then do
      let Rp ← mirror_channel img.h img.w R "horizontal"
      let Gp ← mirror_channel img.h img.w G "vertical"
      return ⟨img.h, img.w, fun i j => (Rp i j, Gp i j, B i j)⟩
    else .error "centered channel is not defined"
  else .error "Mode must be shift or mirror."

/-! ## src/effects/curved_hue_shift.py -/

/-- External per-pixel colorspace conversions (PIL convert) and the
exponential, passed to curved_hue_shift as explicit functions. -/
structure HsvFns where
  expFn : ℚ → ℚ
  rgb2hsv : RGBb → RGBb
  hsv2rgb : RGBb → RGBb

/-- Embedding of curved_hue_shift from src/effects/curved_hue_shift.py:
validate the curve value, convert to HSV, shift each pixel's hue by
shift_amount * exp(p * (h_norm - 0.5)) degrees modulo 360, and convert
back, leaving saturation and value untouched. -/
def curved_hue_shift (F : HsvFns) (img : Img RGBb) (curve_value shift_amount : ℚ) :
    Except String (Img RGBb) :=
  if 1 ≤ curve_value ∧ curve_value ≤ 360 then
    .ok ⟨img.h, img.w, fun i j =>
      let hsv := F.rgb2hsv (img.pix i j)
      let h_norm : ℚ := (hsv.1 : ℚ) / 255
      let p_curve : ℚ := (curve_value - 180) / 180
      let shift_factor := p_curve * (h_norm - 1/2)
      let s_shift_degrees := shift_amount * F.expFn shift_factor
      let current_h_degrees := h_norm * 360
      let new_h_degrees := qmod (current_h_degrees + s_shift_degrees) 360
      let new_h_pil := toByte (new_h_degrees / 360 * 255)
      F.hsv2rgb (new_h_pil, hsv.2.1, hsv.2.2)⟩
  else .error "Curve parameter must be between 1 and 360"

/-! ## src/effects/color_filter.py -/

/-- Embedding of create_gradient from src/effects/color_filter.py.  The
angle enters only through its cosine and sine, which the platform computes
as cos(radians(angle)) and sin(radians(angle)); they are passed here as
the exact rational arguments angle_cos and angle_sin.  The output raster
holds normalized float samples in 0..1. -/
def create_gradient (angle_cos angle_sin : ℚ) (width height : ℕ)
    (start_color end_color : RGBb) : Img RGBq :=
  ⟨height, width, fun i j =>
    let x_norm : ℚ := ((j : ℚ) - (width : ℚ) / 2) / ((width : ℚ) / 2)
    let y_norm : ℚ := ((i : ℚ) - (height : ℚ) / 2) / ((height : ℚ) / 2)
    let x_rot := x_norm * angle_cos - y_norm * angle_sin
    let gv := clipQ 0 1 ((x_rot + 1) / 2)
    let s1 : ℚ := (start_color.1 : ℚ) / 255
    let s2 : ℚ := (start_color.2.1 : ℚ) / 255
    let s3 : ℚ := (start_color.2.2 : ℚ) / 255
    let e1 : ℚ := (end_color.1 : ℚ) / 255
    let e2 : ℚ := (end_color.2.1 : ℚ) / 255
    let e3 : ℚ := (end_color.2.2 : ℚ) / 255
    (gv * s1 + (1 - gv) * e1, gv * s2 + (1 - gv) * e2, gv * s3 + (1 - gv) * e3)⟩

/-- Modelled from the spec: the gradient built by projecting each pixel's
centered coordinate onto the angle's unit vector, min-max normalizing the
projection across all pixels of the image to 0..1, and linearly
interpolating the two colors by the normalized projection value.  Used
only as the comparison point for the refinement claim about
create_gradient. -/
def create_gradient_minmax_spec (angle_cos angle_sin : ℚ) (width height : ℕ)
    (start_color end_color : RGBb) : Img RGBq :=
  ⟨height, width, fun i j =>
    let proj : ℕ → ℕ → ℚ := fun i2 j2 =>
      (((j2 : ℚ) - (width : ℚ) / 2) / ((width : ℚ) / 2)) * angle_cos -
      (((i2 : ℚ) - (height : ℚ) / 2) / ((height : ℚ) / 2)) * angle_sin
    let projs := (List.range height).flatMap (fun i2 => (List.range width).map (proj i2))
    let pmin := projs.foldl min (proj 0 0)
    let pmax := projs.foldl max (proj 0 0)
    let gv := (proj i j - pmin) / (pmax - pmin)
    let s1 : ℚ := (start_color.1 : ℚ) / 255
    let s2 : ℚ := (start_color.2.1 : ℚ) / 255
    let s3 : ℚ := (start_color.2.2 : ℚ) / 255
    let e1 : ℚ := (end_color.1 : ℚ) / 255
    let e2 : ℚ := (end_color.2.1 : ℚ) / 255
    let e3 : ℚ := (end_color.2.2 : ℚ) / 255
    (gv * s1 + (1 - gv) * e1, gv * s2 + (1 - gv) * e2, gv * s3 + (1 - gv) * e3)⟩

/-! ## src/effects/gaussian_blur.py -/

/-- Embedding of gaussian_blur from src/effects/gaussian_blur.py.  The
actual separable convolution is PIL's ImageFilter.GaussianBlur, modelled
as the function argument blurFn taking the image and the radius.  The
source computes sigma (defaulting to radius / 3) and floors both radius
and sigma at 0.1, but passes only the radius to the PIL filter. -/
def gaussian_blur (blurFn : Img RGBb → ℚ → Img RGBb) (image : Img RGBb)
    (radius : ℚ) (sigma : Option ℚ) : Img RGBb :=
  let sigma0 : ℚ := match sigma with
    | none => radius / 3
    | some s => s
  let radius1 := max 0.1 radius
  let sigma1 := max 0.1 sigma0
  blurFn image radius1

/-! ## src/effects/chromatic_aberration.py -/

/-- External real-valued math routines (numpy sqrt, sin, cos, arctan2)
passed to chromatic_aberration as explicit functions. -/
structure MathFns where
  sqrtFn : ℚ → ℚ
  sinFn : ℚ → ℚ
  cosFn : ℚ → ℚ
  atan2Fn : ℚ → ℚ → ℚ

/-- Embedding of apply_displacement from src/effects/chromatic_aberration.py:
bilinear resampling of a channel at the displaced coordinates, with the
sample coordinates clipped to the image bounds. -/
def apply_displacement (channel : Grid) (disp_x disp_y : Grid) (width height : ℕ) : Grid :=
  fun i j =>
    let new_x := clipQ 0 ((width : ℚ) - 1) ((j : ℚ) + disp_x i j)
    let new_y := clipQ 0 ((height : ℚ) - 1) ((i : ℚ) + disp_y i j)
    let x0 : ℤ := ratFloor new_x
    let x1 : ℤ := min (x0 + 1) ((width : ℤ) - 1)
    let y0 : ℤ := ratFloor new_y
    let y1 : ℤ := min (y0 + 1) ((height : ℤ) - 1)
    let wx := new_x - (x0 : ℚ)
    let wy := new_y - (y0 : ℚ)
    channel y0.toNat x0.toNat * (1 - wx) * (1 - wy) +
    channel y0.toNat x1.toNat * wx * (1 - wy) +
    channel y1.toNat x0.toNat * (1 - wx) * wy +
    channel y1.toNat x1.toNat * wx * wy

/-- Index reflection for scipy ndimage convolve with mode reflect,
for offsets of at most one pixel beyond either border. -/
def reflectIdx (n : ℕ) (k : ℤ) : ℕ :=
  if k < 0 then (-k - 1).toNat
  else if (n : ℤ) ≤ k then (2 * (n : ℤ) - 1 - k).toNat
  else k.toNat

/-- Convolution of a grid with the 3x3 Laplacian edge kernel
[[-1,-1,-1],[-1,8,-1],[-1,-1,-1]] in reflect mode (the kernel is
symmetric, so convolution and correlation coincide). -/
def convolveLaplaceReflect (g : Grid) (h w : ℕ) : Grid :=
  fun i j =>
    8 * g i j
    - g (reflectIdx h ((i : ℤ) - 1)) (reflectIdx w ((j : ℤ) - 1))
    - g (reflectIdx h ((i : ℤ) - 1)) (reflectIdx w (j : ℤ))
    - g (reflectIdx h ((i : ℤ) - 1)) (reflectIdx w ((j : ℤ) + 1))
    - g (reflectIdx h (i : ℤ)) (reflectIdx w ((j : ℤ) - 1))
    - g (reflectIdx h (i : ℤ)) (reflectIdx w ((j : ℤ) + 1))
    - g (reflectIdx h ((i : ℤ) + 1)) (reflectIdx w ((j : ℤ) - 1))
    - g (reflectIdx h ((i : ℤ) + 1)) (reflectIdx w (j : ℤ))
    - g (reflectIdx h ((i : ℤ) + 1)) (reflectIdx w ((j : ℤ) + 1))

/-- Embedding of chromatic_aberration from src/effects/chromatic_aberration.py.
The displacement fields for red and blue are built per pattern from the
normalized centered coordinates and the falloff of the distance field;
manual shifts are added for every pattern except custom; red and blue are
resampled by apply_displacement while green stays in place; optional edge
enhancement and color boost follow; the result is clipped to 0..255 and
cast to uint8.  The seed argument only reseeds the platform RNG in the
source and no random draw follows, so it is unused. -/
def chromatic_aberration (F : MathFns) (img : Img RGBb) (intensity : ℚ) (pattern : String)
    (red_shift_x red_shift_y blue_shift_x blue_shift_y center_x center_y : ℚ)
    (falloff : String) (edge_enhancement color_boost : ℚ) (seed : Option ℤ) : Img RGBb :=
  let height := img.h
  let width := img.w
  let red_channel : Grid := fun i j => ((img.pix i j).1 : ℚ)
  let green_channel : Grid := fun i j => ((img.pix i j).2.1 : ℚ)
  let blue_channel : Grid := fun i j => ((img.pix i j).2.2 : ℚ)
  let center_x_px := center_x * (width : ℚ)
  let center_y_px := center_y * (height : ℚ)
  let x_norm : Grid := fun _ j => ((j : ℚ) - center_x_px) / ((width : ℚ) / 2)
  let y_norm : Grid := fun i _ => ((i : ℚ) - center_y_px) / ((height : ℚ) / 2)
  let distance : Grid := fun i j => F.sqrtFn (x_norm i j ^ 2 + y_norm i j ^ 2)
  let falloff_factor : Grid :=
    if falloff = "linear" then distance
    else if falloff = "cubic" then fun i j => distance i j ^ 3
    else fun i j => distance i j ^ 2
  let disp : Grid × Grid × Grid × Grid :=
    if pattern = "radial" then
      (fun i j => x_norm i j * falloff_factor i j * intensity * 0.1,
       fun i j => y_norm i j * falloff_factor i j * intensity * 0.1,
       fun i j => -x_norm i j * falloff_factor i j * intensity * 0.1,
       fun i j => -y_norm i j * falloff_factor i j * intensity * 0.1)
    else if pattern = "linear" then
      (fun _ _ => intensity * 0.2, fun _ _ => 0,
       fun _ _ => -intensity * 0.2, fun _ _ => 0)
    else if pattern = "barrel" then
      let angle : Grid := fun i j => F.atan2Fn (y_norm i j) (x_norm i j)
      let radial_factor : Grid := fun i j => falloff_factor i j * intensity * 0.1
      (fun i j => F.cosFn (angle i j) * radial_factor i j * 1.2,
       fun i j => F.sinFn (angle i j) * radial_factor i j * 1.2,
       fun i j => F.cosFn (angle i j) * radial_factor i j * 0.8,
       fun i j => F.sinFn (angle i j) * radial_factor i j * 0.8)
    else
      let distance_mod : Grid := fun i j => 1 + falloff_factor i j * 0.5
      (fun i j => red_shift_x * distance_mod i j,
       fun i j => red_shift_y * distance_mod i j,
       fun i j => blue_shift_x * distance_mod i j,
       fun i j => blue_shift_y * distance_mod i j)
  let red_disp_x : Grid :=
    if pattern ≠ "custom" then fun i j => disp.1 i j + red_shift_x else disp.1
  let red_disp_y : Grid :=
    if pattern ≠ "custom" then fun i j => disp.2.1 i j + red_shift_y else disp.2.1
  let blue_disp_x : Grid :=
    if pattern ≠ "custom" then fun i j => disp.2.2.1 i j + blue_shift_x else disp.2.2.1
  let blue_disp_y : Grid :=
    if pattern ≠ "custom" then fun i j => disp.2.2.2 i j + blue_shift_y else disp.2.2.2
  let red_displaced := apply_displacement red_channel red_disp_x red_disp_y width height
  let blue_displaced := apply_displacement blue_channel blue_disp_x blue_disp_y width height
  let green_displaced := green_channel
  let result0 : ℕ → ℕ → RGBq := fun i j =>
    (red_displaced i j, green_displaced i j, blue_displaced i j)
  let result1 : ℕ → ℕ → RGBq :=
    if 0 < edge_enhancement then
      let e1 := convolveLaplaceReflect (fun i j => (result0 i j).1) height width
      let e2 := convolveLaplaceReflect (fun i j => (result0 i j).2.1) height width
      let e3 := convolveLaplaceReflect (fun i j => (result0 i j).2.2) height width
      fun i j =>
        ((result0 i j).1 + e1 i j * edge_enhancement * 0.1,
         (result0 i j).2.1 + e2 i j * edge_enhancement * 0.1,
         (result0 i j).2.2 + e3 i j * edge_enhancement * 0.1)
    else result0
  let result2 : ℕ → ℕ → RGBq :=
    if color_boost ≠ 1 then
      let luminance : Grid := fun i j =>
        0.299 * (result1 i j).1 + 0.587 * (result1 i j).2.1 + 0.114 * (result1 i j).2.2
      fun i j =>
        (luminance i j + ((result1 i j).1 - luminance i j) * color_boost,
         luminance i j + ((result1 i j).2.1 - luminance i j) * color_boost,
         luminance i j + ((result1 i j).2.2 - luminance i j) * color_boost)
    else result1
  ⟨height, width, fun i j =>
    (toByte (result2 i j).1, toByte (result2 i j).2.1, toByte (result2 i j).2.2)⟩

/-! ## src/nodes/color/posterize.py -/

/-- Componentwise sum of float RGB pixels. -/
def addRGB (a b : RGBq) : RGBq := (a.1 + b.1, a.2.1 + b.2.1, a.2.2 + b.2.2)

/-- Scale a float RGB pixel by a scalar. -/
def smulRGB (c : ℚ) (a : RGBq) : RGBq := (c * a.1, c * a.2.1, c * a.2.2)

/-- Quantize each channel to multiples of the step: round(x / step) * step. -/
def quantRGB (step : ℚ) (p : RGBq) : RGBq :=
  (npRound (p.1 / step) * step, npRound (p.2.1 / step) * step, npRound (p.2.2 / step) * step)

/-- Pointwise update of a mutable float RGB working array. -/
def gridUpd (g : ℕ → ℕ → RGBq) (i j : ℕ) (v : RGBq) : ℕ → ℕ → RGBq :=
  fun i2 j2 => if i2 = i ∧ j2 = j then v else g i2 j2

/-- Left fold of a function over 0, 1, ..., n-1 (a Python for loop). -/
def foldRange {α : Type} (n : ℕ) (f : α → ℕ → α) (init : α) : α :=
  (List.range n).foldl f init

/-- One Floyd-Steinberg step at pixel (y, x): quantize the pixel in place
and distribute the error to the four forward neighbors with weights
7/16, 3/16, 5/16, 1/16, guarded by the image bounds. -/
def fsStep (h w : ℕ) (step : ℚ) (g : ℕ → ℕ → RGBq) (y x : ℕ) : ℕ → ℕ → RGBq :=
  let old := g y x
  let np := quantRGB step old
  let g1 := gridUpd g y x np
  let e : RGBq := (old.1 - np.1, old.2.1 - np.2.1, old.2.2 - np.2.2)
  let g2 := if x + 1 < w then gridUpd g1 y (x+1) (addRGB (g1 y (x+1)) (smulRGB (7/16) e)) else g1
  if y + 1 < h then
    let g3 := if 0 < x then
        gridUpd g2 (y+1) (x-1) (addRGB (g2 (y+1) (x-1)) (smulRGB (3/16) e)) else g2
    let g4 := gridUpd g3 (y+1) x (addRGB (g3 (y+1) x) (smulRGB (5/16) e))
    if x + 1 < w then
      gridUpd g4 (y+1) (x+1) (addRGB (g4 (y+1) (x+1)) (smulRGB (1/16) e))
    else g4
  else g2

/-- Floyd-Steinberg dithering: row-major in-place traversal of the image. -/
def fsDither (h w : ℕ) (step : ℚ) (g : ℕ → ℕ → RGBq) : ℕ → ℕ → RGBq :=
  foldRange h (fun acc y => foldRange w (fun acc2 x => fsStep h w step acc2 y x) acc) g

/-- One Atkinson step at pixel (y, x): quantize in place and add one
eighth of the error to each of six neighbors, guarded by the bounds. -/
def atkStep (h w : ℕ) (step : ℚ) (g : ℕ → ℕ → RGBq) (y x : ℕ) : ℕ → ℕ → RGBq :=
  let old := g y x
  let np := quantRGB step old
  let g1 := gridUpd g y x np
  let e : RGBq := ((old.1 - np.1) / 8, (old.2.1 - np.2.1) / 8, (old.2.2 - np.2.2) / 8)
  (([((0:ℤ), (1:ℤ)), (0, 2), (1, -1), (1, 0), (1, 1), (2, 0)]).foldl (fun acc d =>
    let ny : ℤ := (y : ℤ) + d.1
    let nx : ℤ := (x : ℤ) + d.2
    if 0 ≤ ny ∧ ny < (h : ℤ) ∧ 0 ≤ nx ∧ nx < (w : ℤ) then
      gridUpd acc ny.toNat nx.toNat (addRGB (acc ny.toNat nx.toNat) e)
    else acc) g1)

/-- Atkinson dithering: row-major in-place traversal of the image. -/
def atkDither (h w : ℕ) (step : ℚ) (g : ℕ → ℕ → RGBq) : ℕ → ℕ → RGBq :=
  foldRange h (fun acc y => foldRange w (fun acc2 x => atkStep h w step acc2 y x) acc) g

/-- The 4x4 Bayer matrix of the ordered dither, scaled by 1/16 and tiled
over the image. -/
def bayer4 (i j : ℕ) : ℚ :=
  (match i % 4, j % 4 with
   | 0, 0 => (0:ℚ) | 0, 1 => 8 | 0, 2 => 2 | 0, 3 => 10
   | 1, 0 => 12 | 1, 1 => 4 | 1, 2 => 14 | 1, 3 => 6
   | 2, 0 => 3 | 2, 1 => 11 | 2, 2 => 1 | 2, 3 => 9
   | 3, 0 => 15 | 3, 1 => 7 | 3, 2 => 13 | 3, 3 => 5
   | _, _ => 0) / 16

/-- RGB to HSV as written in PosterizeNode.posterize: h and s land in 0..1
while v keeps the 0..255 scale of the float input. -/
def posterizeRgbToHsv (p : RGBq) : RGBq :=
  let r := p.1
  let g := p.2.1
  let b := p.2.2
  let maxc := max (max r g) b
  let minc := min (min r g) b
  let v := maxc
  let s := if maxc ≠ 0 then (maxc - minc) / maxc else 0
  let rc := (maxc - r) / (maxc - minc + 1e-6)
  let gc := (maxc - g) / (maxc - minc + 1e-6)
  let bc := (maxc - b) / (maxc - minc + 1e-6)
  let hRaw := if maxc = b then 4 + gc - rc
              else if maxc = g then 2 + rc - bc
              else if maxc = r then bc - gc
              else 0
  (qmod (hRaw / 6) 1, s, v)

/-- HSV to RGB as written in PosterizeNode.posterize, before the final
scaling by 255. -/
def posterizeHsvToRgb (p : RGBq) : RGBq :=
  let hh := p.1
  let s := p.2.1
  let v := p.2.2
  let h6 := hh * 6
  let i : ℤ := ratFloor h6
  let f := h6 - (i : ℚ)
  let pp := v * (1 - s)
  let q := v * (1 - s * f)
  let t := v * (1 - s * (1 - f))
  let im : ℤ := i % 6
  let r := if im = 0 then v else if im = 1 then q else if im = 2 then pp
           else if im = 3 then pp else if im = 4 then t else v
  let g := if im = 0 then t else if im = 1 then v else if im = 2 then v
           else if im = 3 then q else if im = 4 then pp else pp
  let b := if im = 0 then pp else if im = 1 then pp else if im = 2 then t
           else if im = 3 then v else if im = 4 then v else q
  (r, g, b)

/-- RGB to simplified LAB as written in PosterizeNode.posterize; the cube
root of numpy power(x, 1/3) is the explicit function argument. -/
def posterizeRgbToLab (cbrt : ℚ → ℚ) (p : RGBq) : RGBq :=
  let r := p.1
  let g := p.2.1
  let b := p.2.2
  let x := 0.412453 * r + 0.357580 * g + 0.180423 * b
  let y := 0.212671 * r + 0.715160 * g + 0.072169 * b
  let z := 0.019334 * r + 0.119193 * g + 0.950227 * b
  let x1 := x / 0.950456
  let z1 := z / 1.088754
  let l := if y > 0.008856 then 116 * cbrt y - 16 else 903.3 * y
  let a := 500 * (cbrt x1 - cbrt y)
  let b2 := 200 * (cbrt y - cbrt z1)
  (l / 100, (a + 128) / 255, (b2 + 128) / 255)

/-- Simplified LAB back to RGB as written in PosterizeNode.posterize,
before the final scaling by 255. -/
def posterizeLabToRgb (p : RGBq) : RGBq :=
  let l := p.1 * 100
  let a := p.2.1 * 255 - 128
  let b2 := p.2.2 * 255 - 128
  let y := ((l + 16) / 116) ^ 3
  let x := y + a / 500
  let z := y - b2 / 200
  (3.240479 * x - 1.537150 * y - 0.498535 * z,
   -0.969256 * x + 1.875992 * y + 0.041556 * z,
   0.055648 * x - 0.204043 * y + 1.057311 * z)

namespace PosterizeNode

/-- Embedding of PosterizeNode.posterize from src/nodes/color/posterize.py:
optional colorspace conversion, optional dithering, quantization to
255/(levels-1) steps, conversion back to RGB, clip and cast to uint8. -/
def posterize (cbrt : ℚ → ℚ) (img : Img RGBb) (levels : ℕ)
    (dither color_space : String) : Img RGBb :=
  let height := img.h
  let width := img.w
  let arr0 : ℕ → ℕ → RGBq := fun i j =>
    (((img.pix i j).1 : ℚ), ((img.pix i j).2.1 : ℚ), ((img.pix i j).2.2 : ℚ))
  let arr1 : ℕ → ℕ → RGBq :=
    if color_space = "hsv" then fun i j => posterizeRgbToHsv (arr0 i j)
    else if color_space = "lab" then fun i j => posterizeRgbToLab cbrt (arr0 i j)
    else arr0
  let step : ℚ := 255 / ((levels : ℚ) - 1)
  let arr2 : ℕ → ℕ → RGBq :=
    if dither ≠ "none" then
      if dither = "floyd-steinberg" then fsDither height width step arr1
      else if dither = "atkinson" then atkDither height width step arr1
      else fun i j =>
        let d := (bayer4 i j - 0.5) * step
        ((arr1 i j).1 + d, (arr1 i j).2.1 + d, (arr1 i j).2.2 + d)
    else arr1
  let arr3 : ℕ → ℕ → RGBq := fun i j => quantRGB step (arr2 i j)
  let arr4 : ℕ → ℕ → RGBq :=
    if color_space = "hsv" then fun i j => smulRGB 255 (posterizeHsvToRgb (arr3 i j))
    else if color_space = "lab" then fun i j => smulRGB 255 (posterizeLabToRgb (arr3 i j))
    else arr3
  ⟨height, width, fun i j =>
    (toByte (arr4 i j).1, toByte (arr4 i j).2.1, toByte (arr4 i j).2.2)⟩

end PosterizeNode

/-! ## src/effects/noise.py -/

/-- The platform randomness and resampling services used by noise_effect:
the global numpy RNG is modelled as an explicit state of type sigma with
seeding and grid-drawing operations, and scipy ndimage.zoom (order 1) as a
pure resampling function from the small grid and its shape to the full
shape. -/
structure NpPlatform (σ : Type) where
  seedFn : ℤ → σ
  randomGrid : σ → ℕ → ℕ → (Grid × σ)
  normalGrid : σ → ℚ → ℚ → ℕ → ℕ → (Grid × σ)
  zoomFn : Grid → ℕ → ℕ → ℕ → ℕ → Grid
  sinFn : ℚ → ℚ
  cosFn : ℚ → ℚ

/-- Value of one hexadecimal digit (invalid characters give junk 0 where
Python int(..., 16) would raise). -/
def hexVal (c : Char) : ℕ :=
  if '0' ≤ c ∧ c ≤ '9' then c.toNat - 48
  else if 'a' ≤ c ∧ c ≤ 'f' then c.toNat - 87
  else if 'A' ≤ c ∧ c ≤ 'F' then c.toNat - 55
  else 0

/-- Embedding of the hex_to_rgb helpers: strip leading number signs and
read three two-digit hexadecimal components. -/
def hex_to_rgb (s : String) : ℕ × ℕ × ℕ :=
  let t := s.toList.dropWhile (fun c => c = '#')
  (16 * hexVal (t.getD 0 '0') + hexVal (t.getD 1 '0'),
   16 * hexVal (t.getD 2 '0') + hexVal (t.getD 3 '0'),
   16 * hexVal (t.getD 4 '0') + hexVal (t.getD 5 '0'))

/-- 3x3 box convolution with wrap-around boundaries (scipy ndimage
convolve with the ones(3,3)/9 kernel and mode wrap), on the pixels within
the h by w bounds. -/
def convolveBoxWrap (g : Grid) (h w : ℕ) : Grid :=
  fun i j =>
    (g ((i + h - 1) % h) ((j + w - 1) % w) + g ((i + h - 1) % h) (j % w) +
     g ((i + h - 1) % h) ((j + 1) % w) +
     g (i % h) ((j + w - 1) % w) + g (i % h) (j % w) + g (i % h) ((j + 1) % w) +
     g ((i + 1) % h) ((j + w - 1) % w) + g ((i + 1) % h) (j % w) +
     g ((i + 1) % h) ((j + 1) % w)) / 9

/-- One cellular-automata iteration of the cellular pattern: box blur then
binarize at one half. -/
def cellularIter (g : Grid) (h w : ℕ) : Grid :=
  fun i j => if convolveBoxWrap g h w i j > 0.5 then 1 else 0

/-- The perlin-like base pattern: three octaves of sin(x scale) cos(y
scale) summed with halving weights, normalized to 0..1. -/
def perlinBase {σ : Type} (P : NpPlatform σ) (grain_size : ℚ) : Grid :=
  fun i j =>
    let o0 := P.sinFn ((j : ℚ) * (0.1 * 1 * grain_size)) *
              P.cosFn ((i : ℚ) * (0.1 * 1 * grain_size)) / 1
    let o1 := P.sinFn ((j : ℚ) * (0.1 * 2 * grain_size)) *
              P.cosFn ((i : ℚ) * (0.1 * 2 * grain_size)) / 2
    let o2 := P.sinFn ((j : ℚ) * (0.1 * 4 * grain_size)) *
              P.cosFn ((i : ℚ) * (0.1 * 4 * grain_size)) / 4
    (o0 + o1 + o2 + 1) / 2

/-- The body of noise_effect after the seed handling: base pattern
generation, grain-size resampling, per-type noise construction, blend with
the original image, clip and cast.  The RNG state is threaded through each
draw in the order of the source. -/
def noise_effect_body {σ : Type} (P : NpPlatform σ) (st : σ) (img : Img RGBb)
    (noise_type : String) (intensity grain_size color_variation : ℚ)
    (noise_color blend_mode pattern : String) : Img RGBb :=
  let height := img.h
  let width := img.w
  let imgA : ℕ → ℕ → RGBq := fun i j =>
    (((img.pix i j).1 : ℚ), ((img.pix i j).2.1 : ℚ), ((img.pix i j).2.2 : ℚ))
  let base_color := hex_to_rgb noise_color
  let pat : Grid × σ :=
    if pattern = "perlin" then (perlinBase P grain_size, st)
    else if pattern = "cellular" then
      let r := P.randomGrid st height width
      (cellularIter (cellularIter r.1 height width) height width, r.2)
    else P.randomGrid st height width
  let noise_base := pat.1
  let st1 := pat.2
  let gs : Grid × σ :=
    if grain_size ≠ 1 then
      let scale_factor := 1 / grain_size
      let small_height := max 1 (ratFloor ((height : ℚ) * scale_factor)).toNat
      let small_width := max 1 (ratFloor ((width : ℚ) * scale_factor)).toNat
      let sm : Grid × σ :=
        if pattern = "random" then P.randomGrid st1 small_height small_width
        else (noise_base, st1)
      (P.zoomFn sm.1 small_height small_width height width, sm.2)
    else (noise_base, st1)
  let noise_base2 := gs.1
  let st2 := gs.2
  let nt : (ℕ → ℕ → RGBq) × σ :=
    if noise_type = "film_grain" then
      let luminance : Grid := fun i j =>
        0.299 * (imgA i j).1 + 0.587 * (imgA i j).2.1 + 0.114 * (imgA i j).2.2
      let grain_mask : Grid := fun i j =>
        4 * (luminance i j / 255) * (1 - luminance i j / 255)
      let rg := P.randomGrid st2 height width
      let rb := P.randomGrid rg.2 height width
      (fun i j =>
        ((noise_base2 i j - 0.5) * intensity * grain_mask i j * 255,
         (rg.1 i j - 0.5) * intensity * grain_mask i j * color_variation * 255,
         (rb.1 i j - 0.5) * intensity * grain_mask i j * color_variation * 255), rb.2)
    else if noise_type = "digital" then
      let nb : Grid := fun i j => if noise_base2 i j > 1 - intensity then 1 else 0
      if color_variation > 0 then
        let c0 := P.randomGrid st2 height width
        let c1 := P.randomGrid c0.2 height width
        let c2 := P.randomGrid c1.2 height width
        (fun i j =>
          (nb i j * 255 + (c0.1 i j - 0.5) * color_variation * 255,
           nb i j * 255 + (c1.1 i j - 0.5) * color_variation * 255,
           nb i j * 255 + (c2.1 i j - 0.5) * color_variation * 255), c2.2)
      else (fun i j => (nb i j * 255, nb i j * 255, nb i j * 255), st2)
    else if noise_type = "colored" then
      let pr : Grid := fun i j =>
        (noise_base2 i j - 0.5) * intensity * ((base_color.1 : ℚ) / 255) * 255
      let pg : Grid := fun i j =>
        (noise_base2 i j - 0.5) * intensity * ((base_color.2.1 : ℚ) / 255) * 255
      let pb : Grid := fun i j =>
        (noise_base2 i j - 0.5) * intensity * ((base_color.2.2 : ℚ) / 255) * 255
      if color_variation > 0 then
        let c0 := P.randomGrid st2 height width
        let c1 := P.randomGrid c0.2 height width
        let c2 := P.randomGrid c1.2 height width
        (fun i j =>
          (pr i j + (c0.1 i j - 0.5) * color_variation * 255,
           pg i j + (c1.1 i j - 0.5) * color_variation * 255,
           pb i j + (c2.1 i j - 0.5) * color_variation * 255), c2.2)
      else (fun i j => (pr i j, pg i j, pb i j), st2)
    else if noise_type = "salt_pepper" then
      let sp := P.randomGrid st2 height width
      (fun i j =>
        if sp.1 i j < intensity / 2 then ((-255 : ℚ), -255, -255)
        else if sp.1 i j > 1 - intensity / 2 then (255, 255, 255)
        else (0, 0, 0), sp.2)
    else
      let nr := P.normalGrid st2 0 (intensity * 255) height width
      let ng := P.normalGrid nr.2 0 (intensity * 255 * color_variation) height width
      let nb3 := P.normalGrid ng.2 0 (intensity * 255 * color_variation) height width
      (fun i j => (nr.1 i j, ng.1 i j, nb3.1 i j), nb3.2)
  let noise_array := nt.1
  let blend1 : ℚ → ℚ → ℚ :=
    if blend_mode = "add" then fun a n => a + n
    else if blend_mode = "multiply" then fun a n => a * ((n + 255) / 510)
    else if blend_mode = "screen" then fun a n =>
      (1 - (1 - a / 255) * (1 - (n + 255) / 510)) * 255
    else fun a n =>
      (if a / 255 < 0.5 then 2 * (a / 255) * (n / 255 + 0.5)
       else 1 - 2 * (1 - a / 255) * (0.5 - n / 255)) * 255
  ⟨height, width, fun i j =>
    (toByte (blend1 (imgA i j).1 (noise_array i j).1),
     toByte (blend1 (imgA i j).2.1 (noise_array i j).2.1),
     toByte (blend1 (imgA i j).2.2 (noise_array i j).2.2))⟩

/-- Embedding of noise_effect from src/effects/noise.py: a seed that is
neither None nor zero reseeds the global RNG before the body runs; a zero
or missing seed leaves the ambient RNG state untouched. -/
def noise_effect {σ : Type} (P : NpPlatform σ) (st : σ) (img : Img RGBb)
    (noise_type : String) (intensity grain_size color_variation : ℚ)
    (noise_color blend_mode pattern : String) (seed : Option ℤ) : Img RGBb :=
  let st0 := match seed with
    | none => st
    | some s => if s = 0 then st else P.seedFn s
  noise_effect_body P st0 img noise_type intensity grain_size color_variation
    noise_color blend_mode pattern

/-! ## src/nodes/pixelate/pixelate_node.py -/

/-- Mean of the three channels of a byte pixel (numpy mean of the pixel). -/
def pixelMean (p : RGBb) : ℚ := ((p.1 : ℚ) + (p.2.1 : ℚ) + (p.2.2 : ℚ)) / 3

/-- Hue in degrees of a byte pixel as computed in pixelate_by_attribute. -/
def pixelHue (p : RGBb) : ℚ :=
  let r := (p.1 : ℚ) / 255
  let g := (p.2.1 : ℚ) / 255
  let b := (p.2.2 : ℚ) / 255
  let max_val := max r (max g b)
  let min_val := min r (min g b)
  let diff := max_val - min_val
  let hue :=
    if diff = 0 then 0
    else if max_val = r then qmod ((g - b) / diff) 6
    else if max_val = g then (b - r) / diff + 2
    else (r - g) / diff + 4
  hue * 60

/-- Saturation of a byte pixel as computed in pixelate_by_attribute. -/
def pixelSaturation (p : RGBb) : ℚ :=
  let r := (p.1 : ℚ) / 255
  let g := (p.2.1 : ℚ) / 255
  let b := (p.2.2 : ℚ) / 255
  let max_val := max r (max g b)
  let min_val := min r (min g b)
  if max_val = 0 then 0 else (max_val - min_val) / max_val

/-- Luminance of a byte pixel with the standard weights, on the 0..255
scale as in pixelate_by_attribute. -/
def pixelLuminance (p : RGBb) : ℚ :=
  0.299 * (p.1 : ℚ) + 0.587 * (p.2.1 : ℚ) + 0.114 * (p.2.2 : ℚ)

/-- The pixels of one block in row-major order, as the reshape(-1, 3) of
the numpy block slice. -/
def blockPixels (img : Img RGBb) (y x yEnd xEnd : ℕ) : List RGBb :=
  (List.range (yEnd - y)).flatMap
    (fun di => (List.range (xEnd - x)).map (fun dj => img.pix (y + di) (x + dj)))

/-- Lexicographic order on byte pixels, matching the row order of
numpy unique on an array of RGB rows. -/
def lexLtRGB (a b : RGBb) : Bool :=
  a.1 < b.1 ∨ (a.1 = b.1 ∧ (a.2.1 < b.2.1 ∨ (a.2.1 = b.2.1 ∧ a.2.2 < b.2.2)))

/-- The most frequent color of a block: numpy unique sorts the distinct
rows ascending and argmax picks the first maximal count, so the result is
the lexicographically least color among those of maximal frequency. -/
def mostCommonColor (l : List RGBb) : RGBb :=
  match l with
  | [] => (0, 0, 0)
  | p0 :: _ =>
    l.foldl (fun best q =>
      if l.count q > l.count best then q
      else if l.count q = l.count best ∧ lexLtRGB q best then q
      else best) p0

/-- The block pixel whose attribute value is closest to the block's mean
attribute value; numpy argmin keeps the first minimum, so a strict
comparison keeps the earlier pixel on ties. -/
def closestToAvg (l : List RGBb) (attrFn : RGBb → ℚ) : RGBb :=
  match l with
  | [] => (0, 0, 0)
  | p0 :: _ =>
    let avg := (l.map attrFn).foldl (· + ·) 0 / (l.length : ℚ)
    l.foldl (fun best q =>
      if |attrFn q - avg| < |attrFn best - avg| then q else best) p0

namespace XWAVEPixelateNode

/-- Embedding of pixelate_by_attribute from
src/nodes/pixelate/pixelate_node.py: the image is tiled into
pixel_width by pixel_height blocks and every pixel of a block is replaced
by one representative color of that block, chosen by the attr argument
(the attribute parameter of the source).
Out-of-range junk pixels keep the zeros of the result buffer. -/
def pixelate_by_attribute (img : Img RGBb) (pixel_width pixel_height : ℕ)
    (attr : String) : Img RGBb :=
  let height := img.h
  let width := img.w
  ⟨height, width, fun i j =>
    if i < height ∧ j < width ∧ 0 < pixel_height ∧ 0 < pixel_width then
      let y := i / pixel_height * pixel_height
      let x := j / pixel_width * pixel_width
      let block_y_end := min (y + pixel_height) height
      let block_x_end := min (x + pixel_width) width
      let blk := blockPixels img y x block_y_end block_x_end
      if attr = "color" then mostCommonColor blk
      else
        let attrFn : RGBb → ℚ :=
          if attr = "brightness" then pixelMean
          else if attr = "hue" then pixelHue
          else if attr = "saturation" then pixelSaturation
          else if attr = "luminance" then pixelLuminance
          else pixelMean
        closestToAvg blk attrFn
    else (0, 0, 0)⟩

end XWAVEPixelateNode

/-! ## Shared fixtures for witnesses and counterexamples -/

/-- A 1x1 test image with pixel (10, 20, 30). -/
def testImg1 : Img RGBb := ⟨1, 1, fun _ _ => (10, 20, 30)⟩

/-- A 1x1 all-gray image with pixel (128, 128, 128). -/
def gray1 : Img RGBb := ⟨1, 1, fun _ _ => (128, 128, 128)⟩

/-- A 4x4 all-gray image with pixel (128, 128, 128). -/
def gray4 : Img RGBb := ⟨4, 4, fun _ _ => (128, 128, 128)⟩

/-- A small concrete platform instance over natural-number RNG states,
used only to instantiate universally quantified platform arguments in
witnesses. -/
def trivPlatform : NpPlatform ℕ where
  seedFn := fun s => s.toNat
  randomGrid := fun st h w =>
    ((fun i j => ((st + h + w + i + j : ℕ) : ℚ) / ((st + h + w + i + j + 1 : ℕ) : ℚ)), st + 1)
  normalGrid := fun st _ _ _ _ => ((fun _ _ => 0), st + 1)
  zoomFn := fun g _ _ _ _ => g
  sinFn := fun q => q
  cosFn := fun q => q

/-- A trivial conversion bundle for curved_hue_shift witnesses. -/
def trivHsvFns : HsvFns := ⟨fun q => q, fun p => p, fun p => p⟩

/-! ## Theorems -/

/-- The computable floor agrees with the Mathlib floor. -/
theorem ratFloor_eq (q : ℚ) : ratFloor q = ⌊q⌋ := by
  rw [ratFloor, Rat.floor_def', Rat.floor_def]

/-- C10: the output of gaussian_blur does not depend on the sigma
argument; sigma is computed, defaulted and floored but never passed to
the blur, so any two sigma values (including None) give the same result
for every image and radius. -/
theorem gaussian_blur_ignores_sigma (blurFn : Img RGBb → ℚ → Img RGBb)
    (image : Img RGBb) (radius : ℚ) (sigmaA sigmaB : Option ℚ) :
    gaussian_blur blurFn image radius sigmaA = gaussian_blur blurFn image radius sigmaB := rfl

/-- C1: noise_effect with a nonzero seed reseeds the platform RNG before
any draw, so its output does not depend on the ambient RNG state: two
calls with the same nonzero seed and identical parameters produce
identical output rasters. -/
theorem noise_effect_seed_deterministic {σ : Type} (P : NpPlatform σ) (st1 st2 : σ)
    (img : Img RGBb) (noise_type : String) (intensity grain_size color_variation : ℚ)
    (noise_color blend_mode pattern : String) (s : ℤ) (hs : s ≠ 0) :
    noise_effect P st1 img noise_type intensity grain_size color_variation
      noise_color blend_mode pattern (some s) =
    noise_effect P st2 img noise_type intensity grain_size color_variation
      noise_color blend_mode pattern (some s) := by
  show noise_effect_body P (if s = 0 then st1 else P.seedFn s) img noise_type intensity
      grain_size color_variation noise_color blend_mode pattern =
    noise_effect_body P (if s = 0 then st2 else P.seedFn s) img noise_type intensity
      grain_size color_variation noise_color blend_mode pattern
  rw [if_neg hs, if_neg hs]

/-- Witness for C1: two calls with seed 7 from different ambient RNG
states agree on a concrete image and parameter set. -/
theorem noise_effect_seed_deterministic_witness :
    (7 : ℤ) ≠ 0 ∧
    noise_effect trivPlatform 0 testImg1 "film_grain" 0.3 1 0.2 "#FFFFFF" "overlay"
      "random" (some 7) =
    noise_effect trivPlatform 5 testImg1 "film_grain" 0.3 1 0.2 "#FFFFFF" "overlay"
      "random" (some 7) :=
  ⟨by decide, noise_effect_seed_deterministic trivPlatform 0 5 testImg1 "film_grain"
    0.3 1 0.2 "#FFFFFF" "overlay" "random" 7 (by decide)⟩

/-- C7: invert with choice red maps the red channel of every valid pixel
to 255 minus its value and leaves green and blue bit-identical. -/
theorem color_channel_invert_red_isolation (img : Img RGBb) (i j : ℕ)
    (hr : (img.pix i j).1 ≤ 255) :
    (color_channel_manipulation img "invert" "red" none).map
      (fun o => ((o.pix i j).1 + (img.pix i j).1, (o.pix i j).2.1, (o.pix i j).2.2)) =
    Except.ok (255, (img.pix i j).2.1, (img.pix i j).2.2) := by
  simp [color_channel_manipulation, invert_red, Except.map, Nat.sub_add_cancel hr]

/-- Witness for C7 on the concrete test image. -/
theorem color_channel_invert_red_isolation_witness :
    (testImg1.pix 0 0).1 ≤ 255 ∧
    (color_channel_manipulation testImg1 "invert" "red" none).map
      (fun o => ((o.pix 0 0).1 + (testImg1.pix 0 0).1, (o.pix 0 0).2.1, (o.pix 0 0).2.2)) =
    Except.ok (255, (testImg1.pix 0 0).2.1, (testImg1.pix 0 0).2.2) :=
  ⟨by decide, color_channel_invert_red_isolation testImg1 0 0 (by decide)⟩

/-- C8: invalid parameters are rejected with an error and no image is
produced: a missing factor for adjust raises, and a curve value outside
1..360 raises in curved_hue_shift, whatever the other arguments are. -/
theorem invalid_parameters_rejected (img1 : Img RGBb) (choice : String)
    (F : HsvFns) (img2 : Img RGBb) (curve_value shift_amount : ℚ)
    (hcv : curve_value < 1 ∨ 360 < curve_value) :
    color_channel_manipulation img1 "adjust" choice none =
      Except.error "Factor is required for adjust manipulation" ∧
    curved_hue_shift F img2 curve_value shift_amount =
      Except.error "Curve parameter must be between 1 and 360" := by
  constructor
  · simp [color_channel_manipulation]
  · rw [curved_hue_shift, if_neg]
    rintro ⟨h1, h2⟩
    rcases hcv with h | h
    · linarith
    · linarith

/-- Witness for C8: curve value 0 and a missing factor on concrete
inputs. -/
theorem invalid_parameters_rejected_witness :
    ((0 : ℚ) < 1 ∨ 360 < (0 : ℚ)) ∧
    (color_channel_manipulation testImg1 "adjust" "purple" none =
      Except.error "Factor is required for adjust manipulation" ∧
     curved_hue_shift trivHsvFns testImg1 0 30 =
      Except.error "Curve parameter must be between 1 and 360") :=
  ⟨Or.inl (by norm_num),
   invalid_parameters_rejected testImg1 "purple" trivHsvFns testImg1 0 30
     (Or.inl (by norm_num))⟩

/-- C6 counterexample: with manipulation adjust, an unrecognized choice
and a missing factor, the call raises instead of passing the image
through, so the claim as stated fails at this input. -/
theorem color_channel_unrecognized_choice_counterexample :
    color_channel_manipulation testImg1 "adjust" "purple" none ≠ Except.ok testImg1 := by
  simp [color_channel_manipulation]

/-- C6 (amended): whenever a factor is supplied for the adjust type, the
call returns exactly one single-operation result (or the unchanged
input), and any choice value not recognized by the selected swap, invert
or adjust type is a silent pass-through returning the input image; with
type adjust and a missing factor the call raises before looking at the
choice, which is the one exception to the pass-through. -/
theorem color_channel_single_op_passthrough (img : Img RGBb)
    (manipulation_type choice : String) (factor : Option ℚ)
    (hf : manipulation_type = "adjust" → factor ≠ none) :
    (∃ out, color_channel_manipulation img manipulation_type choice factor = Except.ok out ∧
      (out = img ∨ out = swap_red_green img ∨ out = swap_red_blue img ∨
       out = swap_green_blue img ∨ out = invert_red img ∨ out = invert_green img ∨
       out = invert_blue img ∨ out = negative_image img ∨
       out = adjust_red img (max 0 (factor.getD 0)) ∨
       out = adjust_green img (max 0 (factor.getD 0)) ∨
       out = adjust_blue img (max 0 (factor.getD 0)))) ∧
    ((manipulation_type = "swap" ∧ choice ∉ ["red-green", "red-blue", "green-blue"]) →
      color_channel_manipulation img manipulation_type choice factor = Except.ok img) ∧
    (((manipulation_type = "invert" ∨ manipulation_type = "adjust") ∧
        choice ∉ ["red", "green", "blue"]) →
      color_channel_manipulation img manipulation_type choice factor = Except.ok img) := by
  refine ⟨?_, ?_, ?_⟩
  · unfold color_channel_manipulation
    rcases factor with _ | fv
    · have hna : manipulation_type ≠ "adjust" := fun h => (hf h) rfl
      split_ifs <;>
        first
          | exact absurd (by assumption) hna
          | exact ⟨_, rfl, by simp⟩
    · split_ifs <;> exact ⟨_, rfl, by simp⟩
  · rintro ⟨hmt, hch⟩
    subst hmt
    simp only [List.mem_cons, List.not_mem_nil, or_false, not_or] at hch
    obtain ⟨hc1, hc2, hc3⟩ := hch
    simp [color_channel_manipulation, hc1, hc2, hc3]
  · rintro ⟨hmt | hmt, hch⟩ <;> subst hmt <;>
      simp only [List.mem_cons, List.not_mem_nil, or_false, not_or] at hch <;>
      obtain ⟨hc1, hc2, hc3⟩ := hch
    · simp [color_channel_manipulation, hc1, hc2, hc3]
    · have hsome : factor ≠ none := hf rfl
      rcases factor with _ | fv
      · exact absurd rfl hsome
      · simp [color_channel_manipulation, hc1, hc2, hc3]

/-- Witness for C6 (amended): invert with the unrecognized choice purple
passes the concrete test image through unchanged. -/
theorem color_channel_single_op_passthrough_witness :
    ("invert" = "adjust" → (none : Option ℚ) ≠ none) ∧
    color_channel_manipulation testImg1 "invert" "purple" none = Except.ok testImg1 :=
  ⟨by decide,
   (color_channel_single_op_passthrough testImg1 "invert" "purple" none (by decide)).2.2
     ⟨Or.inl rfl, by decide⟩⟩

/-- Shape of a three-bind Except pipeline returning a raster of fixed
height and width: it is an error or an image of that shape. -/
theorem shape_bind3 (ea eb ec : Except String GridN) (hh ww : ℕ)
    (k : GridN → GridN → GridN → ℕ → ℕ → RGBb) :
    (∃ e, (do
        let Rp ← ea
        let Gp ← eb
        let Bp ← ec
        return (⟨hh, ww, k Rp Gp Bp⟩ : Img RGBb)) = Except.error e) ∨
    (do
        let Rp ← ea
        let Gp ← eb
        let Bp ← ec
        return (⟨hh, ww, k Rp Gp Bp⟩ : Img RGBb)).map shapeOf = Except.ok (hh, ww) := by
  rcases ea with e | a
  · exact Or.inl ⟨e, rfl⟩
  rcases eb with e | b
  · exact Or.inl ⟨e, rfl⟩
  rcases ec with e | c
  · exact Or.inl ⟨e, rfl⟩
  · exact Or.inr rfl

/-- Shape of a two-bind Except pipeline returning a raster of fixed
height and width. -/
theorem shape_bind2 (ea eb : Except String GridN) (hh ww : ℕ)
    (k : GridN → GridN → ℕ → ℕ → RGBb) :
    (∃ e, (do
        let Ap ← ea
        let Bp ← eb
        return (⟨hh, ww, k Ap Bp⟩ : Img RGBb)) = Except.error e) ∨
    (do
        let Ap ← ea
        let Bp ← eb
        return (⟨hh, ww, k Ap Bp⟩ : Img RGBb)).map shapeOf = Except.ok (hh, ww) := by
  rcases ea with e | a
  · exact Or.inl ⟨e, rfl⟩
  rcases eb with e | b
  · exact Or.inl ⟨e, rfl⟩
  · exact Or.inr rfl

/-- C3: every embedded filter preserves the spatial shape of its input:
noise, chromatic aberration, posterize, pixelate and the gradient build
rasters of the input height and width, and the Except-valued filters
either raise or return an image of the input shape. -/
theorem filters_preserve_shape :
    (∀ (P : NpPlatform ℕ) (st : ℕ) (img : Img RGBb) (nt : String) (inten gs cv : ℚ)
        (nc bm pat : String) (seed : Option ℤ),
      shapeOf (noise_effect P st img nt inten gs cv nc bm pat seed) = shapeOf img) ∧
    (∀ (F : MathFns) (img : Img RGBb) (inten : ℚ) (pat : String)
        (rsx rsy bsx bsy cx cy : ℚ) (fo : String) (ee cb : ℚ) (seed : Option ℤ),
      shapeOf (chromatic_aberration F img inten pat rsx rsy bsx bsy cx cy fo ee cb seed) =
        shapeOf img) ∧
    (∀ (cbrt : ℚ → ℚ) (img : Img RGBb) (levels : ℕ) (dither cs : String),
      shapeOf (PosterizeNode.posterize cbrt img levels dither cs) = shapeOf img) ∧
    (∀ (img : Img RGBb) (pw ph : ℕ) (attr : String),
      shapeOf (XWAVEPixelateNode.pixelate_by_attribute img pw ph attr) = shapeOf img) ∧
    (∀ (ac as : ℚ) (width height : ℕ) (sc ec : RGBb),
      shapeOf (create_gradient ac as width height sc ec) = (height, width)) ∧
    (∀ (img : Img RGBb) (mt ch : String) (f : Option ℚ),
      (∃ e, color_channel_manipulation img mt ch f = Except.error e) ∨
      (color_channel_manipulation img mt ch f).map shapeOf = Except.ok (shapeOf img)) ∧
    (∀ (img : Img RGBb) (sa : ℤ) (dir cc mode : String),
      (∃ e, split_and_shift_channels img sa dir cc mode = Except.error e) ∨
      (split_and_shift_channels img sa dir cc mode).map shapeOf = Except.ok (shapeOf img)) ∧
    (∀ (F : HsvFns) (img : Img RGBb) (cv sa : ℚ),
      (∃ e, curved_hue_shift F img cv sa = Except.error e) ∨
      (curved_hue_shift F img cv sa).map shapeOf = Except.ok (shapeOf img)) := by
  refine ⟨fun _ _ _ _ _ _ _ _ _ _ _ => rfl, fun _ _ _ _ _ _ _ _ _ _ _ _ _ _ => rfl,
    fun _ _ _ _ _ => rfl, fun _ _ _ _ => rfl, fun _ _ _ _ _ _ => rfl, ?_, ?_, ?_⟩
  · intro img mt ch f
    unfold color_channel_manipulation
    rcases f with _ | fv
    · split_ifs <;> first | exact Or.inl ⟨_, rfl⟩ | exact Or.inr rfl
    · split_ifs <;> first | exact Or.inl ⟨_, rfl⟩ | exact Or.inr rfl
  · intro img sa dir cc mode
    unfold split_and_shift_channels
    dsimp only []
    split_ifs <;>
      first
        | exact Or.inl ⟨_, rfl⟩
        | exact shape_bind3 _ _ _ img.h img.w (fun Rp Gp Bp i j => (Rp i j, Gp i j, Bp i j))
        | exact shape_bind2 _ _ img.h img.w
            (fun Gp Bp i j => ((img.pix i j).1, Gp i j, Bp i j))
        | exact shape_bind2 _ _ img.h img.w
            (fun Rp Bp i j => (Rp i j, (img.pix i j).2.1, Bp i j))
        | exact shape_bind2 _ _ img.h img.w
            (fun Rp Gp i j => (Rp i j, Gp i j, (img.pix i j).2.2))
  · intro F img cv sa
    unfold curved_hue_shift
    split_ifs <;> first | exact Or.inl ⟨_, rfl⟩ | exact Or.inr rfl

/-- Bilinear resampling of a constant channel returns the constant: the
four interpolation weights always sum to one. -/
theorem apply_displacement_const (c : ℚ) (dx dy : Grid) (w h : ℕ) (i j : ℕ) :
    apply_displacement (fun _ _ => c) dx dy w h i j = c := by
  simp only [apply_displacement]
  ring

/-- C4: chromatic aberration with intensity 0, radial pattern, zero
manual shifts, no edge enhancement and color boost 1 returns the 4x4
all-gray image unchanged, for every platform math bundle. -/
theorem chromatic_aberration_zero_intensity_identity (F : MathFns) :
    chromatic_aberration F gray4 0 "radial" 0 0 0 0 (1/2) (1/2) "quadratic" 0 1 none =
      gray4 := by
  refine Img.ext rfl rfl ?_
  funext i j
  simp +decide [chromatic_aberration, gray4, apply_displacement_const]

/-- C5: on an 8x8 image, the shift mode with amount 2, horizontal
direction and centered green translates red left by two pixels with a
two-column zero band at the right edge, translates blue right by two
pixels with a two-column zero band at the left edge, and keeps green
bit-identical. -/
theorem split_and_shift_8x8_shift2_horizontal_G (pix : ℕ → ℕ → RGBb) (i j : Fin 8) :
    (split_and_shift_channels ⟨8, 8, pix⟩ 2 "horizontal" "G" "shift").map
      (fun o => o.pix i j) =
    Except.ok
      ((if (j : ℕ) < 6 then (pix i ((j : ℕ) + 2)).1 else 0),
       (pix i j).2.1,
       (if 2 ≤ (j : ℕ) then (pix i ((j : ℕ) - 2)).2.2 else 0)) := by
  have hj := j.isLt
  have hcc : channelInitial "G" = 'G' := by decide
  simp +decide [split_and_shift_channels, shift_channel, hcc, Except.map,
    Bind.bind, Except.bind, pure, Except.pure]
  constructor
  · split_ifs with h1
    · have he : (((j : ℕ) : ℤ) + 2).toNat = (j : ℕ) + 2 := by omega
      rw [he]
    · rfl
  · split_ifs with h1
    · have he : (((j : ℕ) : ℤ) - 2).toNat = (j : ℕ) - 2 := by omega
      rw [he]
    · rfl

/-- C9 counterexample: on a 2x1 image at angle 0 the source gradient and
the min-max normalized gradient of the spec differ at pixel (0, 1): the
source maps the projection through the fixed affine map and gives one
half, while min-max normalization gives one. -/
theorem create_gradient_not_minmax :
    (create_gradient 1 0 2 1 (255, 255, 255) (0, 0, 0)).pix 0 1 ≠
    (create_gradient_minmax_spec 1 0 2 1 (255, 255, 255) (0, 0, 0)).pix 0 1 := by decide

/-- C9 (amended): the gradient raster maps each pixel's centered
projection p onto the angle's unit vector through the fixed affine map
(p + 1) / 2 clamped to 0..1 (not a data-driven min-max normalization),
and linearly interpolates the two colors with that weight on the first
color. -/
theorem create_gradient_affine_formula (angle_cos angle_sin : ℚ) (width height : ℕ)
    (sc ec : RGBb) (i j : ℕ) :
    (create_gradient angle_cos angle_sin width height sc ec).pix i j =
      (min 1 (max 0 ((((((j : ℚ) - (width : ℚ) / 2) / ((width : ℚ) / 2)) * angle_cos -
          (((i : ℚ) - (height : ℚ) / 2) / ((height : ℚ) / 2)) * angle_sin) + 1) / 2)) *
            ((sc.1 : ℚ) / 255) +
        (1 - min 1 (max 0 ((((((j : ℚ) - (width : ℚ) / 2) / ((width : ℚ) / 2)) * angle_cos -
          (((i : ℚ) - (height : ℚ) / 2) / ((height : ℚ) / 2)) * angle_sin) + 1) / 2))) *
            ((ec.1 : ℚ) / 255),
       min 1 (max 0 ((((((j : ℚ) - (width : ℚ) / 2) / ((width : ℚ) / 2)) * angle_cos -
          (((i : ℚ) - (height : ℚ) / 2) / ((height : ℚ) / 2)) * angle_sin) + 1) / 2)) *
            ((sc.2.1 : ℚ) / 255) +
        (1 - min 1 (max 0 ((((((j : ℚ) - (width : ℚ) / 2) / ((width : ℚ) / 2)) * angle_cos -
          (((i : ℚ) - (height : ℚ) / 2) / ((height : ℚ) / 2)) * angle_sin) + 1) / 2))) *
            ((ec.2.1 : ℚ) / 255),
       min 1 (max 0 ((((((j : ℚ) - (width : ℚ) / 2) / ((width : ℚ) / 2)) * angle_cos -
          (((i : ℚ) - (height : ℚ) / 2) / ((height : ℚ) / 2)) * angle_sin) + 1) / 2)) *
            ((sc.2.2 : ℚ) / 255) +
        (1 - min 1 (max 0 ((((((j : ℚ) - (width : ℚ) / 2) / ((width : ℚ) / 2)) * angle_cos -
          (((i : ℚ) - (height : ℚ) / 2) / ((height : ℚ) / 2)) * angle_sin) + 1) / 2))) *
            ((ec.2.2 : ℚ) / 255)) := by
  simp only [create_gradient, clipQ]

/-- C2: at the failing input, a 1x1 gray image with levels 256, no dither
and the hsv color space, posterize returns white (255, 255, 255) instead
of a value within one level of the input gray (128, 128, 128): the HSV
path quantizes h and s on the 0..1 scale with a step sized for 0..255 and
rescales the 0..255-scaled v channel by 255 a second time. -/
theorem posterize_hsv_levels256_failure :
    (PosterizeNode.posterize (fun q => q) gray1 256 "none" "hsv").pix 0 0 =
      (255, 255, 255) := by decide
